import Mathlib

/-!
Verification of the litefs fixed-primary leaser and its surrounding contracts.

The development embeds `src/fixedprimary/fixedprimary.go` shallowly:
- `time.Time` and `time.Duration` become `Int` nanosecond counts;
- the HTTP layer used by `Acquire` becomes an explicit function from the
  requested URL to an abstract response (`HTTPResult`), where a response
  carries the bytes the body read produced and whether that read errored;
- Go methods with pointer receivers return the updated receiver; methods with
  value receivers operate on a copy, which `callByValue` makes explicit.
-/

namespace LiteFS

/-- A Go `error` value, identified by its message. -/
abbrev GoError := String

/-- The sentinel errors `litefs.ErrNoPrimary` and `litefs.ErrPrimaryExists`
that `Leaser.Acquire` can return. -/
inductive LeaseError
  | noPrimary
  | primaryExists
deriving DecidableEq, Repr

/-- Outcome of `http.Get` on a URL together with the subsequent
`io.ReadAll(resp.Body)`: either the request itself errors (`unreachable`),
or it succeeds and the body read yields `body` bytes, with `readErr`
recording whether `io.ReadAll` returned a non-nil error alongside them. -/
inductive HTTPResult
  | unreachable
  | reachable (body : String) (readErr : Bool)
deriving DecidableEq, Repr

/-- The `fixedprimary.Leaser` struct: configured primary URL, this node's id,
and the last primary id observed from the backend. -/
structure Leaser where
  primaryURL : String
  id : String
  primaryID : String
deriving DecidableEq, Repr

/-- `fixedprimary.NewLeaser`: `primaryID` starts empty. -/
def NewLeaser (primaryURL : String) (id : String) : Leaser :=
  { primaryURL := primaryURL, id := id, primaryID := "" }

/-- `Leaser.IsPrimary`: `l.primaryID == l.id`. -/
def Leaser.IsPrimary (l : Leaser) : Bool :=
  l.primaryID == l.id

/-- `Leaser.PrimaryURL`: returns `""` while no primary id has been observed,
otherwise the configured `primaryURL`; the error is always nil. -/
def Leaser.PrimaryURL (l : Leaser) : String × Option GoError :=
  if l.primaryID == "" then ("", none) else (l.primaryURL, none)

/-- The `fixedprimary.Lease` struct: the leaser that produced it and the
`renewedAt` timestamp (nanoseconds). -/
structure Lease where
  leaser : Leaser
  renewedAt : Int
deriving DecidableEq, Repr

/-- `Lease.RenewedAt`. -/
def Lease.RenewedAt (l : Lease) : Int :=
  l.renewedAt

/-- `Lease.TTL`: returns `math.MaxInt64` as a `time.Duration` (nanoseconds). -/
def Lease.TTL (_ : Lease) : Int :=
  9223372036854775807

/-- Body of `func (l Lease) Renew(ctx) error`: the receiver `l` is the method's
local copy; the assignment `l.renewedAt = time.Now()` updates that copy and the
method returns nil. Yields the copy's final state and the returned error. -/
def Lease.renewBody (l : Lease) (now : Int) : Lease × Option GoError :=
  ({ l with renewedAt := now }, none)

/-- Go semantics of invoking a method whose receiver is declared by value: the
caller's receiver is copied into the method, so after the call the caller still
holds the original value and observes only the method's return value. -/
def callByValue (l : Lease) (method : Lease → Lease × Option GoError) :
    Lease × Option GoError :=
  (l, (method l).2)

/-- The call `lease.Renew(ctx)` as the caller observes it: `Renew` has a value
receiver, so the caller's lease afterwards, paired with the returned error. -/
def Lease.renewCall (l : Lease) (now : Int) : Lease × Option GoError :=
  callByValue l (fun c => c.renewBody now)

/-- The hard-coded URL `Acquire` polls for the primary's identity. -/
def instanceIDURL : String :=
  "http://localhost:20101/instance/id"

/-- `Leaser.Acquire`, with the HTTP layer abstracted as `get` (from requested
URL to response) and the clock as `now`. On request failure it returns
`ErrNoPrimary` without touching the leaser; on success it stores the bytes the
body read produced (ignoring any read error) as `primaryID`, then returns
`ErrPrimaryExists` unless `IsPrimary()`, in which case it returns a `Lease`
renewed at `now`. Yields the updated leaser and the result. -/
def Leaser.Acquire (l : Leaser) (get : String → HTTPResult) (now : Int) :
    Leaser × Except LeaseError Lease :=
  match get instanceIDURL with
  | .unreachable => (l, .error .noPrimary)
  | .reachable body _ =>
      let l' : Leaser := { l with primaryID := body }
      if l'.IsPrimary then
        (l', .ok { leaser := l', renewedAt := now })
      else
        (l', .error .primaryExists)

/-- The error component of an `Acquire` result: `none` when a `Lease` was
returned, `some e` when the sentinel error `e` was returned. -/
def acquireOutcome : Except LeaseError Lease → Option LeaseError
  | .ok _ => none
  | .error e => some e

/-- C4: the fixed-primary lease never expires: `TTL()` returns `math.MaxInt64`
nanoseconds (`2^63 - 1`) for every lease, so `renewedAt + TTL` exceeds every
nonnegative clock value representable as a Go `time.Time` nanosecond count. -/
theorem ttl_is_maxInt64 (l : Lease) :
    l.TTL = 2 ^ 63 - 1 ∧
    (0 < l.renewedAt → ∀ t : Int, t < 2 ^ 63 → t < l.RenewedAt + l.TTL) := by
  have h : l.TTL = 9223372036854775807 := rfl
  refine ⟨by rw [h]; norm_num, fun h0 t ht => ?_⟩
  simp only [Lease.RenewedAt, h]
  omega

/-- C4 witness: the theorem instantiated at a concrete lease and clock value. -/
theorem ttl_is_maxInt64_witness :
    0 < (Lease.mk (NewLeaser "u" "a") 1).renewedAt ∧
    (5 : Int) < (Lease.mk (NewLeaser "u" "a") 1).RenewedAt +
      (Lease.mk (NewLeaser "u" "a") 1).TTL :=
  ⟨by decide,
   (ttl_is_maxInt64 (Lease.mk (NewLeaser "u" "a") 1)).2 (by decide) 5 (by decide)⟩

/-- C3: `Renew` fails to extend the lease: its receiver is a value, so the
assignment to `renewedAt` lands on a discarded copy. At the concrete failing
input — a lease acquired at time 0, renewed at time 5 — the call returns a nil
error yet the caller's `RenewedAt()` still yields 0, not 5 (the copy inside the
method did receive 5, confirming the update was intended). -/
theorem renew_update_is_lost :
    ((Lease.mk (NewLeaser "u" "a") 0).renewCall 5).2 = none ∧
    ((Lease.mk (NewLeaser "u" "a") 0).renewCall 5).1.RenewedAt = 0 ∧
    ((Lease.mk (NewLeaser "u" "a") 0).renewBody 5).1.RenewedAt = 5 ∧
    (0 : Int) ≠ 5 := by
  refine ⟨rfl, rfl, rfl, by decide⟩

/-- C1: mutual exclusion of the primary role: two fixedprimary leasers with
distinct ids that observe the same primary-id string `s` from the backend
cannot both have `IsPrimary()` true after their `Acquire` calls, and at most
one of those `Acquire` calls returns a `Lease` rather than an error. -/
theorem acquire_at_most_one_primary
    (l1 l2 : Leaser) (get1 get2 : String → HTTPResult) (s : String)
    (e1 e2 : Bool) (t1 t2 : Int) (hid : l1.id ≠ l2.id)
    (h1 : get1 instanceIDURL = .reachable s e1)
    (h2 : get2 instanceIDURL = .reachable s e2) :
    ¬((l1.Acquire get1 t1).1.IsPrimary = true ∧
      (l2.Acquire get2 t2).1.IsPrimary = true) ∧
    ¬(acquireOutcome (l1.Acquire get1 t1).2 = none ∧
      acquireOutcome (l2.Acquire get2 t2).2 = none) := by
  have key : ¬(s = l1.id ∧ s = l2.id) := by
    rintro ⟨rfl, h⟩; exact hid h
  constructor
  · rintro ⟨p1, p2⟩
    simp only [Leaser.Acquire, h1, h2, Leaser.IsPrimary] at p1 p2
    by_cases c1 : s = l1.id <;> by_cases c2 : s = l2.id <;>
      simp_all [beq_iff_eq]
  · rintro ⟨p1, p2⟩
    simp only [Leaser.Acquire, h1, h2, Leaser.IsPrimary] at p1 p2
    by_cases c1 : s = l1.id <;> by_cases c2 : s = l2.id <;>
      simp_all [beq_iff_eq, acquireOutcome]

/-- C1 witness: two concrete leasers with ids "a" and "b" both observing
primary id "a": the second one neither is primary nor obtains a lease. -/
theorem acquire_at_most_one_primary_witness :
    ¬(((NewLeaser "u1" "a").Acquire
        (fun _ => .reachable "a" false) 0).1.IsPrimary = true ∧
      ((NewLeaser "u2" "b").Acquire
        (fun _ => .reachable "a" false) 0).1.IsPrimary = true) ∧
    ¬(acquireOutcome ((NewLeaser "u1" "a").Acquire
        (fun _ => .reachable "a" false) 0).2 = none ∧
      acquireOutcome ((NewLeaser "u2" "b").Acquire
        (fun _ => .reachable "a" false) 0).2 = none) :=
  acquire_at_most_one_primary (NewLeaser "u1" "a") (NewLeaser "u2" "b")
    (fun _ => .reachable "a" false) (fun _ => .reachable "a" false)
    "a" false false 0 0 (by decide) rfl rfl

/-- C2: `Acquire` returns exactly one of three outcomes, determined by the
backend response: `ErrNoPrimary` iff the request failed; `ErrPrimaryExists`
iff the request succeeded and the observed identity differs from this node's
id; a `Lease` with nil error iff the request succeeded and the observed
identity equals this node's id. -/
theorem acquire_trichotomy (l : Leaser) (get : String → HTTPResult) (t : Int) :
    ((l.Acquire get t).2 = .error .noPrimary ↔
      get instanceIDURL = .unreachable) ∧
    ((l.Acquire get t).2 = .error .primaryExists ↔
      ∃ body e, get instanceIDURL = .reachable body e ∧ body ≠ l.id) ∧
    (acquireOutcome (l.Acquire get t).2 = none ↔
      ∃ e, get instanceIDURL = .reachable l.id e) := by
  rcases h : get instanceIDURL with _ | ⟨body, e⟩
  · simp [Leaser.Acquire, h, acquireOutcome]
  · by_cases hb : body = l.id
    · subst hb
      simp [Leaser.Acquire, h, Leaser.IsPrimary, acquireOutcome]
    · refine ⟨?_, ?_, ?_⟩
      · simp [Leaser.Acquire, h, Leaser.IsPrimary, beq_iff_eq, hb]
      · simp [Leaser.Acquire, h, Leaser.IsPrimary, beq_iff_eq, hb]
      · simp [Leaser.Acquire, h, Leaser.IsPrimary, beq_iff_eq, hb,
          acquireOutcome, fun e' => (Ne.symm hb : ¬l.id = body)]

/-- C5: an `Acquire` attempt that returns `ErrNoPrimary` (backend unreachable)
leaves the leaser's state unchanged: the stored `primaryID` and the results of
`IsPrimary()` and `PrimaryURL()` are exactly what they were before. -/
theorem acquire_noPrimary_state_unchanged
    (l : Leaser) (get : String → HTTPResult) (t : Int)
    (h : (l.Acquire get t).2 = .error .noPrimary) :
    (l.Acquire get t).1 = l ∧
    (l.Acquire get t).1.primaryID = l.primaryID ∧
    (l.Acquire get t).1.IsPrimary = l.IsPrimary ∧
    (l.Acquire get t).1.PrimaryURL = l.PrimaryURL := by
  rcases hg : get instanceIDURL with _ | ⟨body, e⟩
  · simp [Leaser.Acquire, hg]
  · exfalso
    simp only [Leaser.Acquire, hg] at h
    by_cases hb : ({ l with primaryID := body } : Leaser).IsPrimary <;>
      simp [hb] at h

/-- C5 witness: a concrete leaser with primary id already observed, attempting
acquisition against an unreachable backend, keeps its state. -/
theorem acquire_noPrimary_state_unchanged_witness :
    ((Leaser.mk "u" "a" "b").Acquire (fun _ => .unreachable) 0).2 =
      .error .noPrimary ∧
    ((Leaser.mk "u" "a" "b").Acquire (fun _ => .unreachable) 0).1 =
      Leaser.mk "u" "a" "b" :=
  ⟨rfl,
   (acquire_noPrimary_state_unchanged (Leaser.mk "u" "a" "b")
     (fun _ => .unreachable) 0 rfl).1⟩

/-- C6 counterexample: a leaser configured with primary URL
"http://primary:20202" whose `Acquire` reaches the backend but observes the
empty identity: the call returns `ErrPrimaryExists` (so it reached the backend
without obtaining a lease), yet `PrimaryURL()` afterwards returns `""`, not the
configured primary URL — refuting the claim that any backend-reaching
`Acquire` makes `PrimaryURL()` return `primaryURL`. -/
theorem primaryURL_counterexample_after_empty_body :
    ((NewLeaser "http://primary:20202" "nodeA").Acquire
        (fun _ => .reachable "" false) 0).2 = .error .primaryExists ∧
    ((NewLeaser "http://primary:20202" "nodeA").Acquire
        (fun _ => .reachable "" false) 0).1.PrimaryURL = ("", none) ∧
    (NewLeaser "http://primary:20202" "nodeA").primaryURL =
      "http://primary:20202" ∧
    ("" : String) ≠ "http://primary:20202" := by
  refine ⟨rfl, rfl, rfl, by decide⟩

/-- C6 (amended): after an `Acquire` that reached the backend and observed a
nonempty primary identity, `PrimaryURL()` returns the configured `primaryURL`
with nil error; before any such observation (a fresh leaser, or an observed
empty identity) it returns the empty string with nil error. -/
theorem primaryURL_after_acquire
    (l : Leaser) (get : String → HTTPResult) (body : String) (e : Bool)
    (t : Int) (h : get instanceIDURL = .reachable body e) (hbody : body ≠ "") :
    (l.Acquire get t).1.PrimaryURL = (l.primaryURL, none) ∧
    (∀ u i, (NewLeaser u i).PrimaryURL = ("", none)) := by
  refine ⟨?_, fun u i => rfl⟩
  have hres : (l.Acquire get t).1 = { l with primaryID := body } := by
    simp only [Leaser.Acquire, h]
    by_cases hb : ({ l with primaryID := body } : Leaser).IsPrimary <;>
      simp [hb]
  rw [hres]
  simp [Leaser.PrimaryURL, beq_iff_eq, hbody]

/-- C6 witness: the amended theorem at a concrete leaser observing the
nonempty identity "nodeB". -/
theorem primaryURL_after_acquire_witness :
    ((NewLeaser "http://primary:20202" "nodeA").Acquire
        (fun _ => .reachable "nodeB" false) 0).1.PrimaryURL =
      ("http://primary:20202", none) ∧
    (NewLeaser "http://x" "i").PrimaryURL = ("", none) :=
  ⟨(primaryURL_after_acquire (NewLeaser "http://primary:20202" "nodeA")
      (fun _ => .reachable "nodeB" false) "nodeB" false 0 rfl (by decide)).1,
   (primaryURL_after_acquire (NewLeaser "http://primary:20202" "nodeA")
      (fun _ => .reachable "nodeB" false) "nodeB" false 0 rfl (by decide)).2
     "http://x" "i"⟩

/-- C9: the configured `primaryURL` never influences which host `Acquire`
contacts: `Acquire` consults the HTTP layer only at the fixed address
`http://localhost:20101/instance/id`, so two leasers that differ only in
`primaryURL`, run against backends that agree on that one address, produce the
same outcome and the same stored `primaryID`; the configured `primaryURL`
survives unchanged (and feeds only `PrimaryURL()`). -/
theorem acquire_ignores_configured_primaryURL
    (u1 u2 id pid : String) (get get' : String → HTTPResult) (t : Int)
    (h : get instanceIDURL = get' instanceIDURL) :
    acquireOutcome ((Leaser.mk u1 id pid).Acquire get t).2 =
      acquireOutcome ((Leaser.mk u2 id pid).Acquire get' t).2 ∧
    ((Leaser.mk u1 id pid).Acquire get t).1.primaryID =
      ((Leaser.mk u2 id pid).Acquire get' t).1.primaryID ∧
    ((Leaser.mk u1 id pid).Acquire get t).1.primaryURL = u1 := by
  rcases hg : get instanceIDURL with _ | ⟨body, e⟩ <;>
    rw [hg] at h <;>
    simp only [Leaser.Acquire, hg, ← h] <;>
    [skip;
     by_cases hb : (({ Leaser.mk u1 id pid with primaryID := body }) :
        Leaser).IsPrimary] <;>
    simp_all [Leaser.IsPrimary, acquireOutcome]

/-- C9 witness: two leasers with distinct configured URLs against backends
agreeing at the instance-id address. -/
theorem acquire_ignores_configured_primaryURL_witness :
    acquireOutcome ((Leaser.mk "http://a" "n" "").Acquire
        (fun _ => .reachable "n" false) 0).2 =
      acquireOutcome ((Leaser.mk "http://b" "n" "").Acquire
        (fun _ => .reachable "n" false) 0).2 ∧
    ((Leaser.mk "http://a" "n" "").Acquire
        (fun _ => .reachable "n" false) 0).1.primaryID =
      ((Leaser.mk "http://b" "n" "").Acquire
        (fun _ => .reachable "n" false) 0).1.primaryID ∧
    ((Leaser.mk "http://a" "n" "").Acquire
        (fun _ => .reachable "n" false) 0).1.primaryURL = "http://a" :=
  acquire_ignores_configured_primaryURL "http://a" "http://b" "n" ""
    (fun _ => .reachable "n" false) (fun _ => .reachable "n" false) 0 rfl

/-- C10: a body-read failure is silently ignored by `Acquire`: the result with
a failed read is identical to the result with a clean read of the same bytes,
and in particular a leaser with a nonempty id that reads an empty body (the
typical failed read) gets `ErrPrimaryExists`, not a transport error. -/
theorem acquire_ignores_read_error
    (l : Leaser) (body : String) (t : Int) (hid : l.id ≠ "") :
    l.Acquire (fun _ => .reachable body true) t =
      l.Acquire (fun _ => .reachable body false) t ∧
    (body = "" →
      (l.Acquire (fun _ => .reachable body true) t).2 =
        .error .primaryExists) := by
  refine ⟨rfl, fun hb => ?_⟩
  subst hb
  have hne : ¬("" = l.id) := fun h => hid h.symm
  simp [Leaser.Acquire, instanceIDURL, Leaser.IsPrimary, beq_iff_eq, hne]

/-- C10 witness: a leaser with id "nodeA" whose backend read fails after zero
bytes still gets `ErrPrimaryExists`. -/
theorem acquire_ignores_read_error_witness :
    (NewLeaser "u" "nodeA").Acquire (fun _ => .reachable "" true) 0 =
      (NewLeaser "u" "nodeA").Acquire (fun _ => .reachable "" false) 0 ∧
    ((NewLeaser "u" "nodeA").Acquire (fun _ => .reachable "" true) 0).2 =
      .error .primaryExists :=
  ⟨(acquire_ignores_read_error (NewLeaser "u" "nodeA") "" 0 (by decide)).1,
   (acquire_ignores_read_error (NewLeaser "u" "nodeA") "" 0 (by decide)).2 rfl⟩

/-- A node's role as the spec's state machine derives it from lease state. -/
inductive NodeRole
  | candidate
  | primary
  | replica
deriving DecidableEq, Repr

/-- The exact error message `TestMultiNode_EnsureReadOnlyReplica` asserts for a
write attempted on the replica. -/
def replicaWriteErrMsg : String :=
  "unable to open database file: no such file or directory"

/-- Modelled from the spec: the filesystem adapter's write path is not under
src/; the spec says writes attempted while not Primary fail, and the behavior
observed by `TestMultiNode_EnsureReadOnlyReplica` pins the surfaced error to
`replicaWriteErrMsg`. A write on the Primary succeeds (`none`); on any other
role it fails with that message. -/
def nodeWrite (r : NodeRole) : Option GoError :=
  match r with
  | .primary => none
  | .candidate => some replicaWriteErrMsg
  | .replica => some replicaWriteErrMsg

/-- Whether the first character list is an initial segment of the second. -/
def startsWithChars : List Char → List Char → Bool
  | [], _ => true
  | _ :: _, [] => false
  | a :: pat, b :: s => a == b && startsWithChars pat s

/-- Whether the first character list occurs contiguously inside the second. -/
def containsChars (pat : List Char) : List Char → Bool
  | [] => startsWithChars pat []
  | b :: s => startsWithChars pat (b :: s) || containsChars pat s

/-- Modelled from the spec: a permission-style error, in the sense Go surfaces
one from a filesystem — its message carries the EACCES/EPERM/read-only text
rather than some other error class. -/
def isPermissionStyle (s : String) : Bool :=
  containsChars "permission denied".data s.data ||
    containsChars "operation not permitted".data s.data ||
    containsChars "read-only".data s.data ||
    containsChars "readonly".data s.data

/-- C7 counterexample: the write attempted on the replica does fail, but the
failure `TestMultiNode_EnsureReadOnlyReplica` asserts is the not-found message
"unable to open database file: no such file or directory", which is not a
permission-style error — refuting the claim that the surfaced failure is a
permission error. -/
theorem replica_write_error_not_permission :
    nodeWrite .replica = some replicaWriteErrMsg ∧
    isPermissionStyle replicaWriteErrMsg = false := by
  refine ⟨rfl, by decide⟩

/-- C7 (amended): every write attempted on a node that is not Primary fails,
but the surfaced failure (as asserted by the repository's own test) is the
not-found error "unable to open database file: no such file or directory",
not a permission-style error. -/
theorem nonprimary_write_fails (r : NodeRole) (h : r ≠ .primary) :
    (nodeWrite r).isSome = true ∧
    nodeWrite r = some replicaWriteErrMsg ∧
    isPermissionStyle replicaWriteErrMsg = false := by
  cases r with
  | primary => exact absurd rfl h
  | candidate => exact ⟨rfl, rfl, by decide⟩
  | replica => exact ⟨rfl, rfl, by decide⟩

/-- C7 witness: the amended theorem at the replica role. -/
theorem nonprimary_write_fails_witness :
    (nodeWrite .replica).isSome = true ∧
    nodeWrite .replica = some replicaWriteErrMsg ∧
    isPermissionStyle replicaWriteErrMsg = false :=
  nonprimary_write_fails .replica (by decide)

/-- The `HTTP` section of `main.Config` (only `Addr` is observed). -/
structure HTTPConfig where
  addr : String
deriving DecidableEq, Repr

/-- The `Consul` section of `main.Config`: backend URL, cluster key, lease TTL
and lock-delay, the durations held as nanosecond counts (`time.Duration`). -/
structure ConsulConfig where
  url : String
  key : String
  ttl : Int
  lockDelay : Int
deriving DecidableEq, Repr

/-- Modelled from the spec: `main.Config` (cmd/litefs/main.go is not under
src/) with the recognized options — mount directory, debug flag,
control-plane bind address, and the coordination backend parameters. -/
structure Config where
  mountDir : String
  debug : Bool
  http : HTTPConfig
  consul : ConsulConfig
deriving DecidableEq, Repr

/-- Modelled from the spec: `main.NewConfig` — its defaults are not observable
from src/, so the zero configuration stands in for them; the claim under test
sets every recognized field from the document, so defaults never surface. -/
def NewConfig : Config :=
  { mountDir := "", debug := false, http := { addr := "" },
    consul := { url := "", key := "", ttl := 0, lockDelay := 0 } }

/-- Whether the first character list is a final segment of the second. -/
def endsWithChars (suffix s : List Char) : Bool :=
  startsWithChars suffix.reverse s.reverse

/-- Reads a nonempty all-digit character list as a natural number. -/
def digitsToNatAux : List Char → Nat → Option Nat
  | [], acc => some acc
  | c :: cs, acc =>
      if c.isDigit then digitsToNatAux cs (acc * 10 + (c.toNat - 48))
      else none

/-- `digitsToNatAux` seeded with 0, rejecting the empty list. -/
def digitsToNat : List Char → Option Nat
  | [] => none
  | c :: cs => digitsToNatAux (c :: cs) 0

/-- Modelled from the spec: Go `time.ParseDuration` restricted to a single
unsigned integer component with one unit — the shape the configuration example
uses ("10s", "5s"). Result in nanoseconds; `none` on a malformed string. -/
def parseGoDuration (s : String) : Option Int :=
  let cs := s.data
  let units : List (List Char × Int) :=
    [("ns".data, 1), ("us".data, 1000), ("ms".data, 1000000),
     ("s".data, 1000000000), ("m".data, 60000000000),
     ("h".data, 3600000000000)]
  match units.find? (fun u => endsWithChars u.1 cs) with
  | none => none
  | some u =>
      match digitsToNat (cs.take (cs.length - u.1.length)) with
      | none => none
      | some n => some ((n : Int) * u.2)

/-- A YAML document restricted to the recognized configuration keys: a missing
key leaves the corresponding `Config` field untouched; duration-valued keys
carry their raw string form. -/
structure YamlDoc where
  mountDir : Option String
  debug : Option Bool
  httpAddr : Option String
  consulURL : Option String
  consulKey : Option String
  consulTTL : Option String
  consulLockDelay : Option String
deriving DecidableEq, Repr

/-- Modelled from the spec: `yaml.Unmarshal` of a document into an existing
`main.Config` — each key present in the document overwrites the corresponding
field, duration strings are parsed with Go duration syntax, and a malformed
duration fails the whole unmarshal. -/
def unmarshalConfig (doc : YamlDoc) (c : Config) : Option Config := do
  let ttl ← match doc.consulTTL with
    | none => pure c.consul.ttl
    | some s => parseGoDuration s
  let lockDelay ← match doc.consulLockDelay with
    | none => pure c.consul.lockDelay
    | some s => parseGoDuration s
  pure
    { mountDir := doc.mountDir.getD c.mountDir
      debug := doc.debug.getD c.debug
      http := { addr := doc.httpAddr.getD c.http.addr }
      consul :=
        { url := doc.consulURL.getD c.consul.url
          key := doc.consulKey.getD c.consul.key
          ttl := ttl
          lockDelay := lockDelay } }

/-- C8: the configuration loader recognizes exactly the documented options: a
document with mountDir, debug, httpAddr, consul.url, consul.key, consul.ttl
and consul.lockDelay set populates the corresponding `Config` fields with the
document's values, the duration strings yielding the durations they denote. -/
theorem config_unmarshal_recognizes_options
    (md : String) (dbg : Bool) (addr url key ttlStr lockDelayStr : String)
    (ttl lockDelay : Int) (c : Config)
    (httl : parseGoDuration ttlStr = some ttl)
    (hld : parseGoDuration lockDelayStr = some lockDelay) :
    unmarshalConfig
      { mountDir := some md, debug := some dbg, httpAddr := some addr,
        consulURL := some url, consulKey := some key,
        consulTTL := some ttlStr, consulLockDelay := some lockDelayStr } c =
    some
      { mountDir := md, debug := dbg, http := { addr := addr },
        consul :=
          { url := url, key := key, ttl := ttl, lockDelay := lockDelay } } := by
  simp [unmarshalConfig, httl, hld]

/-- C8 witness: the values of the repository's example configuration
(etc/litefs.yml, as asserted by `TestConfigExample`): "10s" and "5s" parse to
10 and 5 seconds in nanoseconds and every field lands in `Config`. -/
theorem config_unmarshal_recognizes_options_witness :
    parseGoDuration "10s" = some 10000000000 ∧
    parseGoDuration "5s" = some 5000000000 ∧
    unmarshalConfig
      { mountDir := some "/path/to/mnt", debug := some false,
        httpAddr := some ":20202",
        consulURL := some "http://localhost:8500",
        consulKey := some "litefs/primary",
        consulTTL := some "10s", consulLockDelay := some "5s" } NewConfig =
    some
      { mountDir := "/path/to/mnt", debug := false,
        http := { addr := ":20202" },
        consul :=
          { url := "http://localhost:8500", key := "litefs/primary",
            ttl := 10000000000, lockDelay := 5000000000 } } :=
  ⟨rfl, rfl,
   config_unmarshal_recognizes_options "/path/to/mnt" false ":20202"
     "http://localhost:8500" "litefs/primary" "10s" "5s"
     10000000000 5000000000 NewConfig rfl rfl⟩

end LiteFS
